import Mathlib

/- A shallow embedding of the client-side cache and load-orchestration core of
the iot-data-sandbox-ui repository: the API gateway error normalization
(src/api/apiService.ts, src/api/client.ts), the layers store
(src/stores/layers.ts), the projects store (src/stores/projects.ts), and the
per-layer metadata tracking of the LayerManager component
(src/components/LayerManager.vue).

TypeScript numbers that hold server-assigned integer identifiers are modeled
as Int.  Remote calls are modeled by passing the call outcome (an
`Except ApiServiceError result`) as an explicit parameter, so a store action
becomes a pure state-transition function.  JavaScript Map and Set values are
modeled as association lists and lists with the corresponding operations. -/

namespace IotSandboxUI

/-! ## Data model (src/api/types.ts) -/

/-- A single data point.  The `value` field is only carried, never computed
with, in the modeled code, so it is modeled as Int. -/
structure DataPoint where
  timestamp : String
  value : Int
deriving DecidableEq, Repr

/-- Response from querying time series data (src/api/types.ts). -/
structure DataQueryResponse where
  data : List DataPoint
  start_time : String
  end_time : String
  row_count : Int
deriving DecidableEq, Repr

/-- Metadata about a datasource (src/api/types.ts). -/
structure DataSourceMetadata where
  data_source_id : Int
  name : String
  type : String
  start_time : String
  end_time : String
  row_count : Int
  time_label : String
  value_label : String
  when_created : String
deriving DecidableEq, Repr

/-- Project record (src/api/types.ts, ProjectResponse). -/
structure ProjectResponse where
  project_id : Int
  name : String
  layer_count : Int
  when_created : String
deriving DecidableEq, Repr

/-- Layer record (src/api/types.ts, LayerResponse). -/
structure LayerResponse where
  data_layer_id : Int
  project_id : Int
  data_source_id : Int
  name : String
  color : String
  is_visible : Bool
  z_index : Int
deriving DecidableEq, Repr

/-! ## JavaScript Map and Set helpers

A JS `Map<number, V>` keeps unique keys; it is modeled as an association
list where `mapSet` replaces the binding for an existing key in place and
otherwise appends, `mapGet` returns the binding if present, and
`mapContains` mirrors `Map.has`.  A JS `Set<number>` is modeled as a list
without duplicates via `setAdd` and `setDelete`. -/

def mapSet {α : Type} : List (Int × α) → Int → α → List (Int × α)
  | [], k, v => [(k, v)]
  | p :: rest, k, v =>
      if p.1 == k then (k, v) :: mapSet rest k v else p :: mapSet rest k v

def mapGet {α : Type} (m : List (Int × α)) (k : Int) : Option α :=
  (m.find? (fun p => p.1 == k)).map Prod.snd

def mapContains {α : Type} (m : List (Int × α)) (k : Int) : Bool :=
  m.any (fun p => p.1 == k)

def setAdd (s : List Int) (k : Int) : List Int :=
  if s.contains k then s else s ++ [k]

def setDelete (s : List Int) (k : Int) : List Int :=
  s.filter (fun x => x != k)

/-! ## API Gateway error normalization (src/api/apiService.ts) -/

/-- The single error kind thrown by the axios gateway
(class ApiServiceError, src/api/apiService.ts lines 29-39). -/
structure ApiServiceError where
  status : Int
  statusText : String
  message : String
deriving DecidableEq, Repr

/-- The information the response interceptor inspects on an AxiosError:
whether a server response arrived (and its status, status text and parsed
body `error` field, absent when the body lacked one), whether the request
object exists, and the message of the underlying error. -/
structure AxiosErrorInfo where
  response : Option (Int × String × Option String)
  hasRequest : Bool
  message : String
deriving DecidableEq, Repr

/-- JavaScript string disjunction `a || b`: the empty string is falsy. -/
def jsStrOr (a b : String) : String :=
  if a = "" then b else a

/-- JavaScript `a?.error || b` on an optional parsed body field: `undefined`
and the empty string are both falsy. -/
def jsOptStrOr (a : Option String) (b : String) : String :=
  match a with
  | some s => if s = "" then b else s
  | none => b

/-- The rejection branch of the response interceptor installed by
`setupInterceptors` (src/api/apiService.ts lines 62-89): a received server
response becomes an ApiServiceError with the server status, the server
status text, and a message taken from the structured error body (falling
back to the axios message, then to a generic message); a request with no
response becomes status 0 with a fixed no-response message; anything else
(request construction failure) becomes status 0 with the local error
message. -/
def interceptResponseError (e : AxiosErrorInfo) : ApiServiceError :=
  match e.response with
  | some (st, stx, bodyError) =>
      { status := st, statusText := stx,
        message := jsOptStrOr bodyError (jsStrOr e.message "An error occurred") }
  | none =>
      if e.hasRequest then
        { status := 0, statusText := "Network Error",
          message := "No response received from server" }
      else
        { status := 0, statusText := "Request Error", message := e.message }

/-! ## Fetch-based client error normalization (src/api/client.ts) -/

/-- Errors thrown past `IoTDataSandboxClient.fetch`: either the ApiError
class carrying a status, or a plain JavaScript Error carrying only a
message (src/api/client.ts lines 20-29 and 86-98). -/
inductive ClientError where
  | apiError (status : Int) (statusText : String) (error : String)
  | plainError (message : String)
deriving DecidableEq, Repr

/-- The status code a ClientError carries, if any: a plain Error has none. -/
def ClientError.statusCode : ClientError → Option Int
  | .apiError st _ _ => some st
  | .plainError _ => none

/-- What the runtime `fetch` call inside `IoTDataSandboxClient.fetch`
produced: a 2xx response, a non-2xx response (status, status text, and the
parsed `error` body field when the body parsed), an abort fired by the
client-side timeout, another thrown Error, or a thrown non-Error value. -/
inductive FetchOutcome where
  | success (status : Int)
  | httpError (status : Int) (statusText : String) (parsedError : Option String)
  | abortError
  | otherError (message : String)
  | nonErrorThrown
deriving DecidableEq, Repr

/-- Error normalization of `IoTDataSandboxClient.fetch`
(src/api/client.ts lines 54-99): a non-ok response raises ApiError with the
server status and either the parsed body error or the status text; in the
catch block an ApiError is rethrown unchanged, an AbortError (the timeout)
becomes a plain Error with message "Request timeout", another Error is
rethrown, and a non-Error value becomes a plain Error with a fixed
message.  Returns none when the call succeeded (no error raised). -/
def clientFetchError : FetchOutcome → Option ClientError
  | .success _ => none
  | .httpError st stx parsedError =>
      some (.apiError st stx (match parsedError with | some m => m | none => stx))
  | .abortError => some (.plainError "Request timeout")
  | .otherError m => some (.plainError m)
  | .nonErrorThrown => some (.plainError "Unknown error occurred")

/-! ## Layers store (src/stores/layers.ts)

Each store action runs `loading.value = true; error.value = null`, awaits
one gateway call, mutates state from the result, and runs
`loading.value = false` in a finally block.  The gateway call outcome is
passed in as an `Except ApiServiceError` value; the action returns the
post-state together with the value it returns or rethrows. -/

/-- State of the layers store: the layer list, the currentLayer pointer,
the loading flag, the last error string, and the timeseries cache map
keyed by layer id. -/
structure LayersState where
  layers : List LayerResponse
  currentLayer : Option LayerResponse
  loading : Bool
  error : Option String
  layerDataCache : List (Int × DataQueryResponse)
deriving DecidableEq, Repr

/-- The `findIndex` / assign-at-index idiom used by the store actions:
replace the first layer whose data_layer_id matches, leave the list
unchanged when none matches. -/
def replaceFirstLayer : List LayerResponse → Int → LayerResponse → List LayerResponse
  | [], _, _ => []
  | l :: rest, id, newLayer =>
      if l.data_layer_id == id then newLayer :: rest
      else l :: replaceFirstLayer rest id newLayer

/-- The state of the layers store at the await point of an action, after
`loading.value = true; error.value = null` and before the gateway call
resolves. -/
def actionStart (s : LayersState) : LayersState :=
  { s with loading := true, error := none }

/-- `updateLayerColor(id, color)` (src/stores/layers.ts lines 123-149): on
success the server-confirmed layer replaces the matching cache entry and
`currentLayer` when it matches; on failure the error message is captured
and the error rethrown.  The `color` argument only feeds the request body,
which the outcome parameter already reflects. -/
def updateLayerColor (s : LayersState) (id : Int) (_color : String)
    (result : Except ApiServiceError LayerResponse) :
    LayersState × Except ApiServiceError LayerResponse :=
  let s1 := actionStart s
  match result with
  | .ok layer =>
      ({ s1 with
          layers := replaceFirstLayer s1.layers id layer,
          currentLayer :=
            match s1.currentLayer with
            | some cl => if cl.data_layer_id == id then some layer else some cl
            | none => none,
          loading := false }, .ok layer)
  | .error e =>
      ({ s1 with error := some e.message, loading := false }, .error e)

/-- `fetchLayerData(id, params?)` (src/stores/layers.ts lines 208-225): on
success the response is written into the timeseries cache for that id and
returned; on failure the error message is captured and the error rethrown,
the cache untouched. -/
def fetchLayerData (s : LayersState) (id : Int)
    (result : Except ApiServiceError DataQueryResponse) :
    LayersState × Except ApiServiceError DataQueryResponse :=
  let s1 := actionStart s
  match result with
  | .ok d =>
      ({ s1 with
          layerDataCache := mapSet s1.layerDataCache id d,
          loading := false }, .ok d)
  | .error e =>
      ({ s1 with error := some e.message, loading := false }, .error e)

/-- `fetchLayerDataMetadata(id)` (src/stores/layers.ts lines 244-261): on
success the metadata is returned without touching store collections; on
failure the error message is captured into the store error field and the
error rethrown.  No branch distinguishes a 404 from other failures. -/
def fetchLayerDataMetadata (s : LayersState)
    (result : Except ApiServiceError DataSourceMetadata) :
    LayersState × Except ApiServiceError DataSourceMetadata :=
  let s1 := actionStart s
  match result with
  | .ok m => ({ s1 with loading := false }, .ok m)
  | .error e =>
      ({ s1 with error := some e.message, loading := false }, .error e)

/-- `setLayers(newLayers)` (src/stores/layers.ts lines 297-299): replaces
the layer list wholesale. -/
def setLayers (s : LayersState) (newLayers : List LayerResponse) : LayersState :=
  { s with layers := newLayers }

/-! ## LayerManager component metadata tracking
(src/components/LayerManager.vue lines 32-35 and 131-152) -/

/-- Component-local metadata state: the per-layer metadata map, the set of
layer ids with a fetch in flight, and the set of layer ids marked
failed (metadata unavailable). -/
structure LayerManagerState where
  layerMetadata : List (Int × DataSourceMetadata)
  loadingMetadata : List Int
  failedMetadata : List Int
deriving DecidableEq, Repr

/-- `fetchMetadata(layerId)` (src/components/LayerManager.vue lines
131-152): returns immediately when the id is already loading, loaded, or
marked failed; otherwise calls the layers store `fetchLayerDataMetadata`,
on success stores the metadata and deletes any failed mark, and on any
caught error adds the id to the failed set.  The `loadingMetadata` add and
finally-delete cancel out in the completed state.  The component catches
the store rethrow, so `fetchMetadata` itself never throws; its result type
is the pair of post-states. -/
def fetchMetadata (cs : LayerManagerState) (ls : LayersState) (layerId : Int)
    (result : Except ApiServiceError DataSourceMetadata) :
    LayerManagerState × LayersState :=
  if cs.loadingMetadata.contains layerId || mapContains cs.layerMetadata layerId
      || cs.failedMetadata.contains layerId then
    (cs, ls)
  else
    match fetchLayerDataMetadata ls result with
    | (ls1, .ok m) =>
        ({ cs with
            layerMetadata := mapSet cs.layerMetadata layerId m,
            failedMetadata := setDelete cs.failedMetadata layerId }, ls1)
    | (ls1, .error _) =>
        ({ cs with failedMetadata := setAdd cs.failedMetadata layerId }, ls1)

/-! ## Projects store (src/stores/projects.ts) -/

/-- State of the projects store: the project list, the currentProject
pointer, the loading flag, the last error string, and the selected project
and layer ids. -/
structure ProjectsState where
  projects : List ProjectResponse
  currentProject : Option ProjectResponse
  loading : Bool
  error : Option String
  selectedProjectId : Option Int
  selectedLayerId : Option Int
deriving DecidableEq, Repr

/-- The `findIndex` / assign-at-index / push idiom used when a fetched
project is folded into the list: replace the first project whose
project_id matches, otherwise append. -/
def upsertProject (ps : List ProjectResponse) (id : Int) (p : ProjectResponse) :
    List ProjectResponse :=
  if ps.any (fun q => q.project_id == id) then
    (ps.map (fun q => if q.project_id == id then p else q))
  else
    ps ++ [p]

/-- `deleteProject(id)` (src/stores/projects.ts lines 106-131): on server
confirmation the project is filtered out of the list, currentProject is
cleared when it matches, and when the deleted id was the selection, the
new selection becomes `projects[0]?.project_id || null` (the JavaScript
falsy disjunction maps a first id of 0 to null) when projects remain and
null otherwise, with the layer selection cleared; on failure the error
message is captured and the error rethrown. -/
def deleteProject (s : ProjectsState) (id : Int)
    (result : Except ApiServiceError Unit) : ProjectsState :=
  let s1 := { s with loading := true, error := none }
  match result with
  | .error e => { s1 with error := some e.message, loading := false }
  | .ok _ =>
      let remaining := s1.projects.filter (fun p => p.project_id != id)
      let s2 :=
        { s1 with
            projects := remaining,
            currentProject :=
              match s1.currentProject with
              | some cp => if cp.project_id == id then none else some cp
              | none => none }
      if s2.selectedProjectId == some id then
        { s2 with
            selectedProjectId :=
              match remaining with
              | [] => none
              | p :: _ => if p.project_id == 0 then none else some p.project_id,
            selectedLayerId := none,
            loading := false }
      else
        { s2 with loading := false }

/-- `setSelectedProjectId(id)` (src/stores/projects.ts lines 235-251):
records the new id, repoints currentProject by lookup in the loaded list
(`find(...) || null`), and clears the layer selection when
`id === null || id !== previousId`. -/
def setSelectedProjectId (s : ProjectsState) (id : Option Int) : ProjectsState :=
  let previousId := s.selectedProjectId
  let s1 := { s with selectedProjectId := id }
  let s2 :=
    { s1 with
        currentProject :=
          match id with
          | some i => s.projects.find? (fun p => p.project_id == i)
          | none => none }
  if id == none || id != previousId then { s2 with selectedLayerId := none }
  else s2

/-! ## Project load orchestrator (src/stores/projects.ts, loadProject,
lines 161-229)

The pipeline is modeled as a pure function of the two store states and an
environment giving every gateway call outcome.  Alongside the post-states
and the resolve/reject result it emits the ordered trace of its externally
visible steps, so ordering statements can be read off the trace.  The
fan-outs of stages 3 and 4 are awaited as whole batches in the source
(`Promise.all`), so each batch settles before the next stage; the model
lists the calls of a batch in layer-list order. -/

/-- Outcomes of the gateway calls loadProject can make, keyed by id. -/
structure Env where
  getProject : Int → Except ApiServiceError ProjectResponse
  getProjectLayers : Int → Except ApiServiceError (List LayerResponse)
  getLayer : Int → Except ApiServiceError LayerResponse
  getLayerData : Int → Except ApiServiceError DataQueryResponse

/-- Externally visible steps of a loadProject run, in order: gateway calls
and the two cross-store or selection-marking mutations. -/
inductive Event where
  | callGetProject (id : Int)
  | markSelected
  | callGetProjectLayers (id : Int)
  | callGetLayer (id : Int)
  | setLayersCall
  | callGetLayerData (id : Int)
deriving DecidableEq, Repr

/-- Result of a loadProject run: both store post-states, the promise
resolution, and the event trace. -/
structure LoadResult where
  ps : ProjectsState
  ls : LayersState
  result : Except ApiServiceError Unit
  trace : List Event
deriving Repr

/-- Stages 2 to 4 of loadProject, entered with the projects-store state as
it stands right after the stage-1 block (project stored, selection already
marked): fetch the layer list (failure rejects the whole run); an empty
list sets the layer cache empty and resolves; otherwise the per-layer
detail fan-out resolves each failure to null, the non-null subset replaces
the layer cache wholesale, and the timeseries fan-out over that subset
calls the layers-store fetchLayerData per id, each failure caught and
ignored. -/
def loadProjectStages (env : Env) (ps : ProjectsState) (ls : LayersState)
    (id : Int) : LoadResult :=
  match env.getProjectLayers id with
  | .error e =>
      { ps := { ps with error := some e.message, loading := false },
        ls := ls, result := .error e,
        trace := [Event.callGetProjectLayers id] }
  | .ok layerList =>
      if layerList.isEmpty then
        { ps := { ps with loading := false },
          ls := setLayers ls [], result := .ok (),
          trace := [Event.callGetProjectLayers id, Event.setLayersCall] }
      else
        let layerDetails := layerList.map (fun l => env.getLayer l.data_layer_id)
        let validLayers := layerDetails.filterMap (fun r =>
          match r with
          | .ok l => some l
          | .error _ => none)
        let ls1 := setLayers ls validLayers
        let ls2 := validLayers.foldl (fun acc l =>
          (fetchLayerData acc l.data_layer_id (env.getLayerData l.data_layer_id)).1) ls1
        { ps := { ps with loading := false },
          ls := ls2, result := .ok (),
          trace := Event.callGetProjectLayers id ::
            (layerList.map (fun l => Event.callGetLayer l.data_layer_id) ++
              Event.setLayersCall ::
                validLayers.map (fun l => Event.callGetLayerData l.data_layer_id)) }

/-- `loadProject(id)` (src/stores/projects.ts lines 161-229): sets loading,
fetches the project (failure rejects with the error captured), and on
success immediately sets currentProject and selectedProjectId and upserts
the project into the list, before running stages 2 to 4. -/
def loadProject (env : Env) (ps : ProjectsState) (ls : LayersState)
    (id : Int) : LoadResult :=
  let ps1 := { ps with loading := true, error := none }
  match env.getProject id with
  | .error e =>
      { ps := { ps1 with error := some e.message, loading := false },
        ls := ls, result := .error e,
        trace := [Event.callGetProject id] }
  | .ok project =>
      let ps2 :=
        { ps1 with
            currentProject := some project,
            selectedProjectId := some id,
            projects := upsertProject ps1.projects id project }
      let rest := loadProjectStages env ps2 ls id
      { rest with trace := Event.callGetProject id :: Event.markSelected :: rest.trace }

/-! ## Sample data used by concrete evaluations -/

/-- Sample layer A, pointing at datasource 100. -/
def sampleLayerA : LayerResponse := ⟨10, 1, 100, "LayerA", "red", true, 0⟩

/-- Sample layer B, pointing at datasource 101. -/
def sampleLayerB : LayerResponse := ⟨11, 1, 101, "LayerB", "blue", true, 1⟩

/-- Sample timeseries payload. -/
def sampleSeries : DataQueryResponse :=
  ⟨[⟨"2024-01-01T00:00:00Z", 5⟩], "2024-01-01T00:00:00Z", "2024-01-02T00:00:00Z", 1⟩

/-- Sample datasource metadata. -/
def sampleMetadata : DataSourceMetadata :=
  ⟨100, "ds", "csv", "2024-01-01", "2024-01-02", 1, "time", "value", "2024-01-01"⟩

/-- Sample project with id 1. -/
def sampleProject : ProjectResponse := ⟨1, "Demo", 2, "2024-01-01"⟩

/-- A 404 gateway error. -/
def err404 : ApiServiceError := ⟨404, "Not Found", "Data source not found"⟩

/-- A 500 gateway error. -/
def err500 : ApiServiceError := ⟨500, "Internal Server Error", "boom"⟩

/-- A gateway environment for concrete loadProject runs: project 1 exists
with layers A and B; the detail fetch succeeds for A and fails for B; the
timeseries fetch succeeds for A only. -/
def sampleEnv : Env where
  getProject := fun i => if i == 1 then .ok sampleProject else .error err404
  getProjectLayers := fun i =>
    if i == 1 then .ok [sampleLayerA, sampleLayerB] else .error err404
  getLayer := fun j => if j == 10 then .ok sampleLayerA else .error err500
  getLayerData := fun j => if j == 10 then .ok sampleSeries else .error err404

/-- Sample project with id 1, used by selection scenarios. -/
def projA : ProjectResponse := ⟨1, "A", 1, "t"⟩

/-- Sample project with id 2. -/
def projB : ProjectResponse := ⟨2, "B", 1, "t"⟩

/-- Sample project whose server-assigned id is 0, which JavaScript treats
as falsy. -/
def projZero : ProjectResponse := ⟨0, "Z", 1, "t"⟩

/-- An empty layers-store state. -/
def emptyLayersState : LayersState := ⟨[], none, false, none, []⟩

/-- An empty projects-store state. -/
def emptyProjectsState : ProjectsState := ⟨[], none, false, none, none, none⟩

/-! ## Helper lemmas -/

theorem mapGet_mapSet_self {α : Type} (m : List (Int × α)) (k : Int) (v : α) :
    mapGet (mapSet m k v) k = some v := by
  induction m with
  | nil => simp [mapSet, mapGet, List.find?]
  | cons p rest ih =>
      by_cases h : p.1 == k
      · simp [mapSet, h, mapGet, List.find?]
      · simpa [mapSet, h, mapGet, List.find?] using ih

theorem mapGet_eq_none_of_not_contains {α : Type} (m : List (Int × α)) (k : Int)
    (h : mapContains m k = false) : mapGet m k = none := by
  induction m with
  | nil => simp [mapGet, List.find?]
  | cons p rest ih =>
      simp only [mapContains, List.any_cons, Bool.or_eq_false_iff] at h
      simp only [mapGet, List.find?, h.1]
      exact ih (by simpa [mapContains] using h.2)

theorem contains_setAdd_self (s : List Int) (k : Int) :
    (setAdd s k).contains k = true := by
  unfold setAdd
  by_cases h : s.contains k = true
  · rw [if_pos h]; exact h
  · rw [if_neg h]; simp

theorem fetchLayerData_fst_layers (s : LayersState) (id : Int)
    (r : Except ApiServiceError DataQueryResponse) :
    ((fetchLayerData s id r).1).layers = s.layers := by
  cases r <;> rfl

theorem foldl_fetchLayerData_layers (env : Env) (ll : List LayerResponse)
    (s : LayersState) :
    (ll.foldl (fun acc l =>
        (fetchLayerData acc l.data_layer_id (env.getLayerData l.data_layer_id)).1)
      s).layers = s.layers := by
  induction ll generalizing s with
  | nil => rfl
  | cons hd tl ih => rw [List.foldl_cons, ih, fetchLayerData_fst_layers]

/-! ## Claim theorems -/

/-- C3: updateLayerColor is write-through: the layer list, currentLayer
and the timeseries cache are unchanged at the await point (before the
gateway call resolves), and when the gateway call fails the completed
state still holds the pre-call layer records and currentLayer (hence the
pre-call color), the cache is untouched, and only loading (now false) and
error (now the failure message) changed; the error is rethrown. -/
theorem updateLayerColor_write_through (s : LayersState) (id : Int) (c : String)
    (e : ApiServiceError) :
    ((actionStart s).layers = s.layers ∧
      (actionStart s).currentLayer = s.currentLayer ∧
      (actionStart s).layerDataCache = s.layerDataCache) ∧
    ((updateLayerColor s id c (Except.error e)).1.layers = s.layers ∧
      (updateLayerColor s id c (Except.error e)).1.currentLayer = s.currentLayer ∧
      (updateLayerColor s id c (Except.error e)).1.layerDataCache = s.layerDataCache ∧
      (updateLayerColor s id c (Except.error e)).1.loading = false ∧
      (updateLayerColor s id c (Except.error e)).1.error = some e.message ∧
      (updateLayerColor s id c (Except.error e)).2 = Except.error e) := by
  exact ⟨⟨rfl, rfl, rfl⟩, rfl, rfl, rfl, rfl, rfl, rfl⟩

/-- C7: the response interceptor produces a single error kind,
ApiServiceError, whose fields are: the server status, status text and the
structured body error message (falling back to the axios message, then a
generic message) when a response was received; status 0 with the fixed
no-response message when a request went out but no response arrived; and
status 0 with the distinct Request Error status text and the local error
message for a request-construction failure. -/
theorem interceptResponseError_taxonomy (e : AxiosErrorInfo) :
    (∀ st stx bodyError, e.response = some (st, stx, bodyError) →
        (interceptResponseError e).status = st ∧
        (interceptResponseError e).statusText = stx ∧
        (∀ m, bodyError = some m → m ≠ "" →
          (interceptResponseError e).message = m) ∧
        (bodyError = none →
          (interceptResponseError e).message = jsStrOr e.message "An error occurred")) ∧
    (e.response = none → e.hasRequest = true →
        interceptResponseError e =
          ⟨0, "Network Error", "No response received from server"⟩) ∧
    (e.response = none → e.hasRequest = false →
        interceptResponseError e = ⟨0, "Request Error", e.message⟩) := by
  refine ⟨?_, ?_, ?_⟩
  · intro st stx bodyError hresp
    refine ⟨?_, ?_, ?_, ?_⟩
    · simp [interceptResponseError, hresp]
    · simp [interceptResponseError, hresp]
    · intro m hm hne
      simp [interceptResponseError, hresp, hm, jsOptStrOr, hne]
    · intro hb
      simp [interceptResponseError, hresp, hb, jsOptStrOr]
  · intro hresp hreq
    simp [interceptResponseError, hresp, hreq]
  · intro hresp hreq
    simp [interceptResponseError, hresp, hreq]

/-- Witness for C7 at three concrete gateway failures: a 404 with a
structured body, a transport failure, and a request-construction
failure. -/
theorem interceptResponseError_taxonomy_witness :
    (interceptResponseError
        ⟨some (404, "Not Found", some "data source not found"), true,
          "Request failed"⟩).message = "data source not found" ∧
    interceptResponseError ⟨none, true, "timeout exceeded"⟩ =
      ⟨0, "Network Error", "No response received from server"⟩ ∧
    interceptResponseError ⟨none, false, "bad config"⟩ =
      ⟨0, "Request Error", "bad config"⟩ := by
  refine ⟨?_, ?_, ?_⟩
  · exact ((interceptResponseError_taxonomy _).1 404 "Not Found"
      (some "data source not found") rfl).2.2.1 "data source not found" rfl
      (by decide)
  · exact (interceptResponseError_taxonomy _).2.1 rfl rfl
  · exact (interceptResponseError_taxonomy _).2.2 rfl rfl

/-- C8 counterexample: the client-side timeout (an AbortError) surfaces as
the plain Error with message Request timeout, which carries no status code
at all, so it is not an error of the status-0 family (an ApiError with
status_code 0) as the claim requires. -/
theorem clientFetch_timeout_no_status_cex :
    clientFetchError FetchOutcome.abortError =
      some (ClientError.plainError "Request timeout") ∧
    ClientError.statusCode (ClientError.plainError "Request timeout") = none := by
  exact ⟨rfl, rfl⟩

/-- C8 amended: a timed-out client fetch raises a distinct plain Error
with message Request timeout; that error carries no status code (it is
not an ApiError, hence not in any status family); a server error keeps
the ApiError shape with the server status, so it differs from the timeout
error; and a transport error whose message is not Request timeout maps to
a plain Error distinct from the timeout error. -/
theorem clientFetch_timeout_amended (st : Int) (stx : String)
    (parsedError : Option String) (m : String)
    (hm : m ≠ "Request timeout") :
    clientFetchError FetchOutcome.abortError =
      some (ClientError.plainError "Request timeout") ∧
    ClientError.statusCode (ClientError.plainError "Request timeout") = none ∧
    (∃ emsg, clientFetchError (FetchOutcome.httpError st stx parsedError) =
        some (ClientError.apiError st stx emsg)) ∧
    clientFetchError (FetchOutcome.otherError m) ≠
      clientFetchError FetchOutcome.abortError := by
  refine ⟨rfl, rfl, ⟨_, rfl⟩, ?_⟩
  simpa [clientFetchError] using hm

/-- Witness for C8 amended at a 500 server error and the browser transport
message Failed to fetch. -/
theorem clientFetch_timeout_amended_witness :
    ("Failed to fetch" ≠ "Request timeout") ∧
    (clientFetchError FetchOutcome.abortError =
        some (ClientError.plainError "Request timeout") ∧
      ClientError.statusCode (ClientError.plainError "Request timeout") = none ∧
      (∃ emsg, clientFetchError
          (FetchOutcome.httpError 500 "Internal Server Error" none) =
          some (ClientError.apiError 500 "Internal Server Error" emsg)) ∧
      clientFetchError (FetchOutcome.otherError "Failed to fetch") ≠
        clientFetchError FetchOutcome.abortError) :=
  ⟨by decide,
    clientFetch_timeout_amended 500 "Internal Server Error" none
      "Failed to fetch" (by decide)⟩

/-- C9 counterexample: a failed fetchLayerData leaves the timeseries cache
map unchanged, so a stale entry written by an earlier successful fetch is
still present after the failure, where the claim requires the entry to be
absent. -/
theorem fetchLayerData_failure_keeps_stale_cex :
    ((fetchLayerData
        { layers := [], currentLayer := none, loading := false, error := none,
          layerDataCache := [(3, sampleSeries)] }
        3 (Except.error err404)).1).layerDataCache = [(3, sampleSeries)] ∧
    mapGet ((fetchLayerData
        { layers := [], currentLayer := none, loading := false, error := none,
          layerDataCache := [(3, sampleSeries)] }
        3 (Except.error err404)).1).layerDataCache 3 = some sampleSeries := by
  exact ⟨rfl, rfl⟩

/-- C9 amended: every successful fetchLayerData populates the timeseries
cache entry for that layer id with the response, and a failed
fetchLayerData leaves the cache map exactly as it was, so the entry is
absent after a failure only when it was absent before. -/
theorem fetchLayerData_cache_amended (s : LayersState) (id : Int)
    (d : DataQueryResponse) (e : ApiServiceError) :
    mapGet ((fetchLayerData s id (Except.ok d)).1).layerDataCache id = some d ∧
    ((fetchLayerData s id (Except.error e)).1).layerDataCache =
      s.layerDataCache := by
  exact ⟨mapGet_mapSet_self _ _ _, rfl⟩

theorem setSelectedProjectId_fst_selected (s : ProjectsState) (x : Option Int) :
    (setSelectedProjectId s x).selectedProjectId = x := by
  simp only [setSelectedProjectId]
  split <;> rfl

theorem setSelectedProjectId_fst_layer (s : ProjectsState) (x : Option Int) :
    (setSelectedProjectId s x).selectedLayerId =
      (if x == none || x != s.selectedProjectId then none
       else s.selectedLayerId) := by
  simp only [setSelectedProjectId]
  split <;> rfl

/-- C5 counterexample: in a state with no project selected but a layer
selected, calling setSelectedProjectId with null clears the selected
layer even though the new project id equals the previous selection, so
layer selection is not cleared only on a change of project id. -/
theorem setSelectedProjectId_clears_on_null_cex :
    (setSelectedProjectId
        { projects := [], currentProject := none, loading := false,
          error := none, selectedProjectId := none, selectedLayerId := some 7 }
        none).selectedLayerId = none ∧
    ({ projects := [], currentProject := none, loading := false,
        error := none, selectedProjectId := none, selectedLayerId := some 7 }
      : ProjectsState).selectedProjectId = none ∧
    ({ projects := [], currentProject := none, loading := false,
        error := none, selectedProjectId := none, selectedLayerId := some 7 }
      : ProjectsState).selectedLayerId = some 7 := by
  exact ⟨rfl, rfl, rfl⟩

/-- C5 amended: calling setSelectedProjectId twice in a row with the same
id leaves selectedLayerId after the second call equal to its value after
the first call, and selectedLayerId is cleared exactly when the new id is
null or differs from the previous selection (not only when it differs). -/
theorem setSelectedProjectId_selection_amended (s : ProjectsState) (x : Option Int) :
    (setSelectedProjectId (setSelectedProjectId s x) x).selectedLayerId
      = (setSelectedProjectId s x).selectedLayerId ∧
    (setSelectedProjectId s x).selectedLayerId
      = (if x == none || x != s.selectedProjectId then none
         else s.selectedLayerId) := by
  refine ⟨?_, setSelectedProjectId_fst_layer s x⟩
  rw [setSelectedProjectId_fst_layer (setSelectedProjectId s x) x,
    setSelectedProjectId_fst_selected s x]
  cases x with
  | none => rw [setSelectedProjectId_fst_layer]; simp
  | some i => simp

/-- C4 counterexample: deleting the selected project 1 from the list
[projA, projZero] leaves project 0 in the list, yet the JavaScript falsy
coercion `projects[0]?.project_id || null` sets selectedProjectId to null
although a project remains, where the claim requires the first remaining
project id 0. -/
theorem deleteProject_zero_id_cex :
    (deleteProject
        { projects := [projA, projZero], currentProject := none,
          loading := false, error := none, selectedProjectId := some 1,
          selectedLayerId := some 3 }
        1 (Except.ok ())).projects = [projZero] ∧
    (deleteProject
        { projects := [projA, projZero], currentProject := none,
          loading := false, error := none, selectedProjectId := some 1,
          selectedLayerId := some 3 }
        1 (Except.ok ())).selectedProjectId = none := by
  exact ⟨rfl, rfl⟩

/-- C4 amended: after a confirmed deletion of the selected project, the
project is removed from the list, selectedLayerId is null, and
selectedProjectId is the first remaining project id unless that id is 0
(the JavaScript falsy coercion maps it to null) or no projects remain
(null). -/
theorem deleteProject_select_amended (s : ProjectsState) (id : Int)
    (h : s.selectedProjectId = some id) :
    (deleteProject s id (Except.ok ())).projects
        = s.projects.filter (fun p => p.project_id != id) ∧
    (deleteProject s id (Except.ok ())).selectedLayerId = none ∧
    (deleteProject s id (Except.ok ())).selectedProjectId
        = (match s.projects.filter (fun p => p.project_id != id) with
            | [] => none
            | p :: _ =>
                if p.project_id == 0 then none else some p.project_id) := by
  simp [deleteProject, h]

/-- Witness for C4 amended: deleting selected project 1 from
[projA, projB] leaves [projB] with selectedProjectId 2 and no selected
layer. -/
theorem deleteProject_select_amended_witness :
    ({ projects := [projA, projB], currentProject := none, loading := false,
        error := none, selectedProjectId := some 1, selectedLayerId := some 3 }
      : ProjectsState).selectedProjectId = some 1 ∧
    ((deleteProject
        { projects := [projA, projB], currentProject := none, loading := false,
          error := none, selectedProjectId := some 1, selectedLayerId := some 3 }
        1 (Except.ok ())).projects
        = [projA, projB].filter (fun p => p.project_id != 1) ∧
      (deleteProject
        { projects := [projA, projB], currentProject := none, loading := false,
          error := none, selectedProjectId := some 1, selectedLayerId := some 3 }
        1 (Except.ok ())).selectedLayerId = none ∧
      (deleteProject
        { projects := [projA, projB], currentProject := none, loading := false,
          error := none, selectedProjectId := some 1, selectedLayerId := some 3 }
        1 (Except.ok ())).selectedProjectId
        = (match [projA, projB].filter (fun p => p.project_id != 1) with
            | [] => none
            | p :: _ =>
                if p.project_id == 0 then none else some p.project_id)) :=
  ⟨by decide,
    deleteProject_select_amended
      { projects := [projA, projB], currentProject := none, loading := false,
        error := none, selectedProjectId := some 1, selectedLayerId := some 3 }
      1 (by decide)⟩

/-- C10 counterexample: project 1 is both selected and current and project
0 also exists; after the confirmed deletion of project 1 a project
remains, but selectedProjectId is null rather than the first remaining
project id 0 (the falsy coercion), so the claimed post-state does not
hold. -/
theorem deleteProject_divergence_cex :
    (deleteProject
        { projects := [projA, projZero], currentProject := some projA,
          loading := false, error := none, selectedProjectId := some 1,
          selectedLayerId := none }
        1 (Except.ok ())).projects = [projZero] ∧
    (deleteProject
        { projects := [projA, projZero], currentProject := some projA,
          loading := false, error := none, selectedProjectId := some 1,
          selectedLayerId := none }
        1 (Except.ok ())).selectedProjectId = none ∧
    (deleteProject
        { projects := [projA, projZero], currentProject := some projA,
          loading := false, error := none, selectedProjectId := some 1,
          selectedLayerId := none }
        1 (Except.ok ())).currentProject = none := by
  exact ⟨rfl, rfl, rfl⟩

/-- C10 amended: when the deleted id was both the selection and the
current project and the first remaining project has a nonzero id, the
post-state has selectedProjectId equal to that first remaining id while
currentProject is null — deleteProject never re-points currentProject at
the newly selected project, so the two selection fields diverge (when the
first remaining id is 0 the falsy coercion instead sets selectedProjectId
to null as well). -/
theorem deleteProject_divergence_amended (s : ProjectsState) (id : Int)
    (cp p : ProjectResponse) (rest : List ProjectResponse)
    (hsel : s.selectedProjectId = some id)
    (hcur : s.currentProject = some cp)
    (hcp : cp.project_id = id)
    (hrem : s.projects.filter (fun q => q.project_id != id) = p :: rest)
    (hp : p.project_id ≠ 0) :
    (deleteProject s id (Except.ok ())).selectedProjectId = some p.project_id ∧
    (deleteProject s id (Except.ok ())).currentProject = none := by
  have hp2 : (p.project_id == 0) = false := by simpa using hp
  simp [deleteProject, hsel, hcur, hcp, hrem, hp2]

/-- Witness for C10 amended: deleting project 1, selected and current,
from [projA, projB] selects project 2 while currentProject becomes
null. -/
theorem deleteProject_divergence_amended_witness :
    ({ projects := [projA, projB], currentProject := some projA,
        loading := false, error := none, selectedProjectId := some 1,
        selectedLayerId := none } : ProjectsState).selectedProjectId = some 1 ∧
    [projA, projB].filter (fun q => q.project_id != 1) = [projB] ∧
    projB.project_id ≠ 0 ∧
    ((deleteProject
        { projects := [projA, projB], currentProject := some projA,
          loading := false, error := none, selectedProjectId := some 1,
          selectedLayerId := none }
        1 (Except.ok ())).selectedProjectId = some projB.project_id ∧
      (deleteProject
        { projects := [projA, projB], currentProject := some projA,
          loading := false, error := none, selectedProjectId := some 1,
          selectedLayerId := none }
        1 (Except.ok ())).currentProject = none) :=
  ⟨by decide, by decide, by decide,
    deleteProject_divergence_amended
      { projects := [projA, projB], currentProject := some projA,
        loading := false, error := none, selectedProjectId := some 1,
        selectedLayerId := none }
      1 projA projB [] (by decide) (by decide) (by decide) (by decide)
      (by decide)⟩

/-- C1 counterexample: a fetchMetadata run whose gateway call fails with
the 404 error writes the 404 message into the layers-store generic error
field (the escalation the claim forbids), and a subsequent fetchMetadata
call for the same id with a successful outcome is a no-op — the failed
mark short-circuits it, so a later successful fetch cannot clear the
mark. -/
theorem fetchMetadata_escalates_404_cex :
    ((fetchMetadata ⟨[], [], []⟩ emptyLayersState 1 (Except.error err404)).2).error
        = some "Data source not found" ∧
    ((fetchMetadata ⟨[], [], []⟩ emptyLayersState 1
        (Except.error err404)).1).failedMetadata = [1] ∧
    fetchMetadata
        (fetchMetadata ⟨[], [], []⟩ emptyLayersState 1 (Except.error err404)).1
        emptyLayersState 1 (Except.ok sampleMetadata)
      = ((fetchMetadata ⟨[], [], []⟩ emptyLayersState 1
            (Except.error err404)).1,
          emptyLayersState) := by
  exact ⟨rfl, rfl, rfl⟩

/-- C1 amended: for a layer id not yet tracked, a fetchMetadata run whose
gateway call fails (as a 404 does for an orphaned DataSource reference)
leaves the component metadata cache empty for that id and marks the id
failed, and the component catches the store rethrow, so nothing
propagates past fetchMetadata; however the layers store records the 404
message in its generic error field, and the failed mark makes every later
fetchMetadata call for that id (successful or not) a no-op, so the mark
is never cleared by a subsequent fetch through this path. -/
theorem fetchMetadata_orphan_amended (cs : LayerManagerState) (ls : LayersState)
    (id : Int) (e : ApiServiceError)
    (h404 : e.status = 404)
    (h1 : cs.loadingMetadata.contains id = false)
    (h2 : mapContains cs.layerMetadata id = false)
    (h3 : cs.failedMetadata.contains id = false) :
    mapGet ((fetchMetadata cs ls id (Except.error e)).1).layerMetadata id = none ∧
    ((fetchMetadata cs ls id (Except.error e)).1).failedMetadata.contains id
      = true ∧
    ((fetchMetadata cs ls id (Except.error e)).2).error = some e.message ∧
    ((fetchMetadata cs ls id (Except.error e)).2).loading = false ∧
    (∀ r2, fetchMetadata (fetchMetadata cs ls id (Except.error e)).1
        ((fetchMetadata cs ls id (Except.error e)).2) id r2
      = ((fetchMetadata cs ls id (Except.error e)).1,
          (fetchMetadata cs ls id (Except.error e)).2)) := by
  have h1m : id ∉ cs.loadingMetadata := by simpa using h1
  have h3m : id ∉ cs.failedMetadata := by simpa using h3
  have hrun : fetchMetadata cs ls id (Except.error e)
      = ({ cs with failedMetadata := setAdd cs.failedMetadata id },
          { ls with loading := false, error := some e.message }) := by
    simp [fetchMetadata, fetchLayerDataMetadata, actionStart, h1m, h2, h3m]
  rw [hrun]
  refine ⟨mapGet_eq_none_of_not_contains _ _ h2, contains_setAdd_self _ _,
    rfl, rfl, ?_⟩
  intro r2
  have hmem : id ∈ setAdd cs.failedMetadata id := by
    simpa using contains_setAdd_self cs.failedMetadata id
  simp [fetchMetadata, hmem]

/-- Witness for C1 amended: layer id 2, untracked, with the 404 gateway
error. -/
theorem fetchMetadata_orphan_amended_witness :
    err404.status = 404 ∧
    (([] : List Int).contains 2 = false ∧
      mapContains ([] : List (Int × DataSourceMetadata)) 2 = false ∧
      ([] : List Int).contains 2 = false) ∧
    (mapGet ((fetchMetadata ⟨[], [], []⟩ emptyLayersState 2
          (Except.error err404)).1).layerMetadata 2 = none ∧
      ((fetchMetadata ⟨[], [], []⟩ emptyLayersState 2
          (Except.error err404)).1).failedMetadata.contains 2 = true ∧
      ((fetchMetadata ⟨[], [], []⟩ emptyLayersState 2
          (Except.error err404)).2).error = some err404.message ∧
      ((fetchMetadata ⟨[], [], []⟩ emptyLayersState 2
          (Except.error err404)).2).loading = false ∧
      (∀ r2, fetchMetadata
          (fetchMetadata ⟨[], [], []⟩ emptyLayersState 2 (Except.error err404)).1
          ((fetchMetadata ⟨[], [], []⟩ emptyLayersState 2
              (Except.error err404)).2) 2 r2
        = ((fetchMetadata ⟨[], [], []⟩ emptyLayersState 2
              (Except.error err404)).1,
            (fetchMetadata ⟨[], [], []⟩ emptyLayersState 2
              (Except.error err404)).2))) :=
  ⟨by decide, ⟨by decide, by decide, by decide⟩,
    fetchMetadata_orphan_amended ⟨[], [], []⟩ emptyLayersState 2 err404
      (by decide) (by decide) (by decide) (by decide)⟩

theorem loadProjectStages_ps_fields (env : Env) (ps : ProjectsState)
    (ls : LayersState) (id : Int) :
    (loadProjectStages env ps ls id).ps.selectedProjectId = ps.selectedProjectId ∧
    (loadProjectStages env ps ls id).ps.currentProject = ps.currentProject := by
  unfold loadProjectStages
  cases env.getProjectLayers id with
  | error e => exact ⟨rfl, rfl⟩
  | ok ll =>
      by_cases h : ll.isEmpty <;> simp [h]

/-- C2: when stage 1 and stage 2 of loadProject succeed with a non-empty
layer list and the per-layer detail fetch fails for a non-empty strict
subset of the layers (some fail, some succeed), the layers store after
the run holds exactly the successfully fetched layers, in layer-list
order, and loadProject resolves successfully. -/
theorem loadProject_keeps_successful_layers (env : Env) (ps : ProjectsState)
    (ls : LayersState) (id : Int) (p : ProjectResponse)
    (ll : List LayerResponse)
    (h1 : env.getProject id = Except.ok p)
    (h2 : env.getProjectLayers id = Except.ok ll)
    (h3 : ∃ l ∈ ll, ∃ e, env.getLayer l.data_layer_id = Except.error e)
    (h4 : ∃ l ∈ ll, ∃ d, env.getLayer l.data_layer_id = Except.ok d) :
    (loadProject env ps ls id).ls.layers
      = (ll.map (fun l => env.getLayer l.data_layer_id)).filterMap (fun r =>
          match r with
          | Except.ok l => some l
          | Except.error _ => none) ∧
    (loadProject env ps ls id).result = Except.ok () := by
  have hne : ll.isEmpty = false := by
    rcases h3 with ⟨l, hl, _⟩
    cases ll with
    | nil => cases hl
    | cons a b => rfl
  unfold loadProject
  rw [h1]
  unfold loadProjectStages
  rw [h2]
  simp only [hne, Bool.false_eq_true, if_false]
  refine ⟨?_, trivial⟩
  rw [foldl_fetchLayerData_layers]
  rfl

/-- Witness for C2 on sampleEnv: project 1 has layers A and B, the detail
fetch fails for B only, and the run ends with exactly layer A cached and
a successful resolution. -/
theorem loadProject_keeps_successful_layers_witness :
    sampleEnv.getProject 1 = Except.ok sampleProject ∧
    sampleEnv.getProjectLayers 1 = Except.ok [sampleLayerA, sampleLayerB] ∧
    (∃ l ∈ [sampleLayerA, sampleLayerB], ∃ e,
        sampleEnv.getLayer l.data_layer_id = Except.error e) ∧
    (∃ l ∈ [sampleLayerA, sampleLayerB], ∃ d,
        sampleEnv.getLayer l.data_layer_id = Except.ok d) ∧
    ((loadProject sampleEnv emptyProjectsState emptyLayersState 1).ls.layers
        = ([sampleLayerA, sampleLayerB].map (fun l =>
            sampleEnv.getLayer l.data_layer_id)).filterMap (fun r =>
              match r with
              | Except.ok l => some l
              | Except.error _ => none) ∧
      (loadProject sampleEnv emptyProjectsState emptyLayersState 1).result
        = Except.ok ()) :=
  ⟨rfl, rfl, ⟨sampleLayerB, by decide, err500, rfl⟩,
    ⟨sampleLayerA, by decide, sampleLayerA, rfl⟩,
    loadProject_keeps_successful_layers sampleEnv emptyProjectsState
      emptyLayersState 1 sampleProject [sampleLayerA, sampleLayerB] rfl rfl
      ⟨sampleLayerB, by decide, err500, rfl⟩
      ⟨sampleLayerA, by decide, sampleLayerA, rfl⟩⟩

/-- C6 counterexample: a concrete fully successful loadProject run emits
the selection-marking assignment of currentProject and selectedProjectId
as its second step, immediately after the stage-1 project fetch and
before the stage-2 layer-list call and all later stage calls, where the
claim requires it only after stages 1 through 4 have completed. -/
theorem loadProject_marks_selected_early_cex :
    (loadProject sampleEnv emptyProjectsState emptyLayersState 1).trace
      = [Event.callGetProject 1, Event.markSelected,
          Event.callGetProjectLayers 1, Event.callGetLayer 10,
          Event.callGetLayer 11, Event.setLayersCall,
          Event.callGetLayerData 10] ∧
    (loadProject sampleEnv emptyProjectsState emptyLayersState 1).trace[1]?
      = some Event.markSelected ∧
    (loadProject sampleEnv emptyProjectsState emptyLayersState 1).trace[2]?
      = some (Event.callGetProjectLayers 1) := by
  exact ⟨rfl, rfl, rfl⟩

/-- C6 amended: in every loadProject run whose stage-1 project fetch
succeeds, currentProject and selectedProjectId are assigned immediately
after that fetch — the trace begins with the stage-1 call followed by the
selection marking, before any stage-2, 3 or 4 call — and the final state
carries that selection even if a later stage fails. -/
theorem loadProject_marks_selected_after_stage1 (env : Env)
    (ps : ProjectsState) (ls : LayersState) (id : Int) (p : ProjectResponse)
    (h1 : env.getProject id = Except.ok p) :
    (loadProject env ps ls id).trace.take 2
        = [Event.callGetProject id, Event.markSelected] ∧
    (loadProject env ps ls id).ps.selectedProjectId = some id ∧
    (loadProject env ps ls id).ps.currentProject = some p := by
  unfold loadProject
  rw [h1]
  refine ⟨rfl, ?_, ?_⟩
  · exact (loadProjectStages_ps_fields env _ ls id).1
  · exact (loadProjectStages_ps_fields env _ ls id).2

/-- Witness for C6 amended on sampleEnv at project 1. -/
theorem loadProject_marks_selected_after_stage1_witness :
    sampleEnv.getProject 1 = Except.ok sampleProject ∧
    ((loadProject sampleEnv emptyProjectsState emptyLayersState 1).trace.take 2
        = [Event.callGetProject 1, Event.markSelected] ∧
      (loadProject sampleEnv emptyProjectsState
          emptyLayersState 1).ps.selectedProjectId = some 1 ∧
      (loadProject sampleEnv emptyProjectsState
          emptyLayersState 1).ps.currentProject = some sampleProject) :=
  ⟨rfl, loadProject_marks_selected_after_stage1 sampleEnv emptyProjectsState
    emptyLayersState 1 sampleProject rfl⟩

end IotSandboxUI
